import Mathlib

/-!
Verification of the KitchenCommandML restaurant-operations ML pipeline.

This file is a shallow embedding, in Lean 4, of the parts of the repository
that the verified properties talk about: the feature engineering helpers
(`src/src/pipelines/feature_engineering.py`), the data validator
(`src/src/pipelines/data_processor.py`), the filesystem model registry
(`src/src/training/train_pipeline.py` and `src/src/utils/model_loader.py`),
the five model classes, the kitchen prediction service
(`src/src/services/kitchen_service.py`) and the training orchestrator.

Conventions of the embedding:
- Python floats are idealised as `ℚ` (exact rational arithmetic) and, where a
  square root is taken, as `ℝ`.  `np.inf` is modelled by `Option` (`none`).
- Fallible Python code (raised exceptions) is modelled with `Except String`,
  the error string naming the exception raised by the source line.
- External learned estimators (XGBoost, LightGBM, RandomForest, Prophet,
  sklearn scalers/encoders) are opaque function-valued fields of the model
  structures; the spec treats their internals as out of scope.
-/

namespace KitchenCommandML

/-- Arithmetic mean of a list of rationals, `pandas.Series.mean`.  The empty
case (division by zero, giving 0) is never reached by the guarded callers. -/
def mean (l : List ℚ) : ℚ := l.sum / (l.length : ℚ)

/-- Minimum of a list, `pandas.Series.min`; junk value 0 on the empty list. -/
def listMin : List ℚ → ℚ
  | [] => 0
  | x :: xs => xs.foldl min x

/-- Maximum of a list, `pandas.Series.max`; junk value 0 on the empty list. -/
def listMax : List ℚ → ℚ
  | [] => 0
  | x :: xs => xs.foldl max x

/-- Insert into a sorted list, used to define the median. -/
def insertSorted (x : ℚ) : List ℚ → List ℚ
  | [] => [x]
  | y :: ys => if x ≤ y then x :: y :: ys else y :: insertSorted x ys

/-- Insertion sort on rationals. -/
def sortQ (l : List ℚ) : List ℚ := l.foldr insertSorted []

/-- Median as computed by `pandas.Series.median`: the middle element for odd
length, the mean of the two middle elements for even length. -/
def median (l : List ℚ) : ℚ :=
  let s := sortQ l
  let n := l.length
  if n = 0 then 0
  else if n % 2 = 1 then s.getD (n / 2) 0
  else (s.getD (n / 2 - 1) 0 + s.getD (n / 2) 0) / 2

/-- Sample variance with one delta degree of freedom, as used by
`pandas.Series.std`.  For fewer than two samples pandas yields NaN; that
unreachable-by-the-claims edge is idealised to 0 here. -/
def sampleVar (l : List ℚ) : ℚ :=
  if 2 ≤ l.length then ((l.map (fun x => (x - mean l) ^ 2)).sum) / ((l.length : ℚ) - 1)
  else 0

/-- Sample standard deviation, `pandas.Series.std` (square root of
`sampleVar`). -/
noncomputable def sampleStd (l : List ℚ) : ℝ := Real.sqrt (sampleVar l)

/-- Rounding to two decimals.  Python `round` rounds half to even; every value
this program rounds to two decimals is an integer multiple of `1/300` whose
scaled value is never a half-integer (`200 * s / 3 = odd` is impossible), so
round-half-up agrees with the source on all reachable inputs. -/
def round2 (x : ℚ) : ℚ := ((round (x * 100) : ℤ) : ℚ) / 100

namespace FeatureEngineer

/-- Embedding of `FeatureEngineer._calculate_rfm_score`
(`src/src/pipelines/feature_engineering.py`, lines 351-409): bucket each of
recency/frequency/monetary to 1-5 on fixed thresholds and return the mean of
the three scores rounded to two decimals. -/
def calculate_rfm_score (recency frequency monetary : ℚ) : ℚ :=
  let recency_score : ℚ :=
    if recency ≤ 30 then 5
    else if recency ≤ 60 then 4
    else if recency ≤ 90 then 3
    else if recency ≤ 180 then 2
    else 1
  let frequency_score : ℚ :=
    if 20 ≤ frequency then 5
    else if 10 ≤ frequency then 4
    else if 5 ≤ frequency then 3
    else if 2 ≤ frequency then 2
    else 1
  let monetary_score : ℚ :=
    if 1000 ≤ monetary then 5
    else if 500 ≤ monetary then 4
    else if 200 ≤ monetary then 3
    else if 50 ≤ monetary then 2
    else 1
  round2 ((recency_score + frequency_score + monetary_score) / 3)

end FeatureEngineer

/-- Spec-side recency bucket, written from the spec words: recency ≤30→5,
≤60→4, ≤90→3, ≤180→2, else 1. -/
def specRecencyBucket (recency : ℚ) : ℚ :=
  if recency ≤ 30 then 5
  else if recency ≤ 60 then 4
  else if recency ≤ 90 then 3
  else if recency ≤ 180 then 2
  else 1

/-- Spec-side frequency bucket: ≥20→5, ≥10→4, ≥5→3, ≥2→2, else 1. -/
def specFrequencyBucket (frequency : ℚ) : ℚ :=
  if 20 ≤ frequency then 5
  else if 10 ≤ frequency then 4
  else if 5 ≤ frequency then 3
  else if 2 ≤ frequency then 2
  else 1

/-- Spec-side monetary bucket: ≥1000→5, ≥500→4, ≥200→3, ≥50→2, else 1. -/
def specMonetaryBucket (monetary : ℚ) : ℚ :=
  if 1000 ≤ monetary then 5
  else if 500 ≤ monetary then 4
  else if 200 ≤ monetary then 3
  else if 50 ≤ monetary then 2
  else 1

/-- Spec-side RFM score: unweighted mean of the three bucket scores, rounded
to two decimals. -/
def specRfmScore (r f m : ℚ) : ℚ :=
  round2 ((specRecencyBucket r + specFrequencyBucket f + specMonetaryBucket m) / 3)

/-- C4: `_calculate_rfm_score` buckets each component to 1-5 on the fixed
boundary-inclusive thresholds and returns the unweighted mean of the three
scores rounded to 2 decimals; at the boundaries, recency 30 scores 5 while 31
scores 4, frequency 20 scores 5 while 19 scores 4, and monetary 1000 scores 5
while 999 scores 4. -/
theorem rfm_score_bucketing :
    (∀ r f m : ℚ, FeatureEngineer.calculate_rfm_score r f m = specRfmScore r f m) ∧
    specRecencyBucket 30 = 5 ∧ specRecencyBucket 31 = 4 ∧
    specFrequencyBucket 20 = 5 ∧ specFrequencyBucket 19 = 4 ∧
    specMonetaryBucket 1000 = 5 ∧ specMonetaryBucket 999 = 4 ∧
    FeatureEngineer.calculate_rfm_score 30 20 1000 = 5 ∧
    FeatureEngineer.calculate_rfm_score 31 20 1000 = 467 / 100 ∧
    FeatureEngineer.calculate_rfm_score 30 19 1000 = 467 / 100 ∧
    FeatureEngineer.calculate_rfm_score 30 20 999 = 467 / 100 := by
  refine ⟨fun r f m => rfl, by decide, by decide, by decide, by decide, by decide,
    by decide, ?_, ?_, ?_, ?_⟩ <;>
    norm_num [FeatureEngineer.calculate_rfm_score, round2, round_eq]

/-- DataFrame model: a list of column names and a list of rows aligned with
those names.  Cell values are `Option ℚ` (`none` models a pandas null/NaT);
timestamps are idealised as rationals so that order comparisons are exact. -/
structure Frame where
  cols : List String
  rows : List (List (Option ℚ))

/-- Values of one column, `df[c]` after the column is known to exist. -/
def Frame.colValues (f : Frame) (c : String) : List (Option ℚ) :=
  match f.cols.indexOf? c with
  | some i => f.rows.map (fun r => r.getD i none)
  | none => []

/-- Column access `df[c]`: raises `KeyError` when the column is absent. -/
def Frame.col (f : Frame) (c : String) : Except String (List (Option ℚ)) :=
  if f.cols.contains c then .ok (f.colValues c)
  else .error ("KeyError: " ++ c)

/-- Column projection `df[cs]` (a list of labels): pandas raises `KeyError`
when any requested column is absent from the frame. -/
def Frame.project (f : Frame) (cs : List String) :
    Except String (List (List (Option ℚ))) :=
  if cs.all f.cols.contains then .ok (cs.map f.colValues)
  else
    .error ("KeyError: columns " ++
      String.intercalate " " (cs.filter (fun c => !f.cols.contains c)) ++
      " not in index")

/-- Pandas comparison `v < b` on a nullable cell: null compares as false. -/
def optLt (v : Option ℚ) (b : ℚ) : Bool :=
  match v with
  | some q => decide (q < b)
  | none => false

/-- Pandas comparison `v > b` on a nullable cell: null compares as false. -/
def optGt (v : Option ℚ) (b : ℚ) : Bool :=
  match v with
  | some q => decide (b < q)
  | none => false

/-- Result dictionary shared by all `DataValidator.validate_*` operations. -/
structure ValidationResult where
  valid : Bool
  issues : List String
  record_count : ℕ
deriving DecidableEq

namespace DataValidator

/-- Required columns checked by `validate_orders`. -/
def required_order_cols : List String :=
  ["id", "restaurant_id", "created_at", "grand_total"]

/-- Embedding of `DataValidator.validate_orders`
(`src/src/pipelines/data_processor.py`, lines 258-293).  The source first
appends a missing-columns issue, but then evaluates
`df[required_cols].isnull().sum()`, a projection that raises `KeyError` when
any required column is absent; the direct accesses `df[grand_total]` and
`df[created_at]` would raise likewise.  `now` stands for
`pd.Timestamp.now()`. -/
def validate_orders (df : Frame) (now : ℚ) : Except String ValidationResult :=
  let missing := required_order_cols.filter (fun c => !df.cols.contains c)
  let issues : List String :=
    if missing.isEmpty then []
    else ["Missing columns: " ++ String.intercalate ", " missing]
  match df.project required_order_cols with
  | .error e => .error e
  | .ok sub =>
    let issues :=
      if sub.any (fun colv => colv.any Option.isNone) then
        issues ++ ["Null values found"]
      else issues
    match df.col "grand_total" with
    | .error e => .error e
    | .ok gt =>
      let issues :=
        if gt.any (fun v => optLt v 0) then
          issues ++ ["Negative grand_total values found"]
        else issues
      match df.col "created_at" with
      | .error e => .error e
      | .ok ca =>
        let issues :=
          if ca.any (fun v => optGt v now) then
            issues ++ ["Future dates found in created_at"]
          else issues
        .ok { valid := issues.isEmpty, issues := issues, record_count := df.rows.length }

end DataValidator

/-- Order frame missing the required `grand_total` column. -/
def ordersFrameMissingTotal : Frame :=
  { cols := ["id", "restaurant_id", "created_at"],
    rows := [[some 1, some 1, some 5]] }

/-- Order frame with every required column present and clean values. -/
def ordersFrameComplete : Frame :=
  { cols := ["id", "restaurant_id", "created_at", "grand_total"],
    rows := [[some 1, some 1, some 5, some 20]] }

/-- C2: the spec says `validate_orders` never raises and always returns a
`valid/issues/record_count` dictionary with `valid` true exactly when `issues`
is empty.  On a frame missing `grand_total` the code instead raises `KeyError`
at the `df[required_cols]` projection (after having dutifully recorded the
missing column as an issue), so the never-raises half fails; whenever the code
does return, `valid` does equal emptiness of `issues`. -/
theorem validate_orders_missing_column_raises :
    DataValidator.validate_orders ordersFrameMissingTotal 100 =
      .error "KeyError: columns grand_total not in index" ∧
    ∀ df now r, DataValidator.validate_orders df now = .ok r →
      r.valid = r.issues.isEmpty := by
  constructor
  · rfl
  · intro df now r h
    unfold DataValidator.validate_orders at h
    repeat' split at h
    all_goals try (obtain rfl := Except.ok.inj h; rfl)
    all_goals cases h

/-- Witness for C2: the second conjunct applied at a concrete clean frame. -/
theorem validate_orders_missing_column_raises_witness :
    DataValidator.validate_orders ordersFrameComplete 100 =
      .ok { valid := true, issues := [], record_count := 1 } ∧
    ({ valid := true, issues := [], record_count := 1 } : ValidationResult).valid =
      ({ valid := true, issues := [], record_count := 1 } : ValidationResult).issues.isEmpty :=
  ⟨by rfl,
   validate_orders_missing_column_raises.2 ordersFrameComplete 100
     { valid := true, issues := [], record_count := 1 } (by rfl)⟩

/-- One processed kitchen-performance record, as consumed by
`FeatureEngineer.create_kitchen_features`. -/
structure KitchenRow where
  station_id : ℤ
  menu_item_id : ℤ
  prep_time_minutes : ℚ
deriving DecidableEq

/-- Prep times of a list of kitchen rows, the `prep_time_minutes` column. -/
def prepTimes (l : List KitchenRow) : List ℚ := l.map (fun r => r.prep_time_minutes)

/-- Rows matching both the station and the menu item, the filter
`df[(df.station_id == station_id) & (df.menu_item_id == menu_item_id)]`. -/
def pairRows (df : List KitchenRow) (station_id menu_item_id : ℤ) : List KitchenRow :=
  df.filter (fun r => r.station_id == station_id && r.menu_item_id == menu_item_id)

/-- Rows matching the station, the filter `df[df.station_id == station_id]`. -/
def stationRows (df : List KitchenRow) (station_id : ℤ) : List KitchenRow :=
  df.filter (fun r => r.station_id == station_id)

/-- Aggregate prep-time statistics (one tier of the fallback chain). -/
structure PrepAgg where
  avg : ℚ
  std : ℝ
  minv : ℚ
  maxv : ℚ
  med : ℚ

/-- Mean/std/min/max/median of a prep-time column, as each populated branch of
`create_kitchen_features` computes them. -/
noncomputable def aggOf (times : List ℚ) : PrepAgg :=
  { avg := mean times, std := sampleStd times, minv := listMin times,
    maxv := listMax times, med := median times }

/-- Feature dictionary returned by `create_kitchen_features`. -/
structure KitchenFeatures where
  avg_prep_time : ℚ
  std_prep_time : ℝ
  min_prep_time : ℚ
  max_prep_time : ℚ
  median_prep_time : ℚ
  item_complexity : ℝ

/-- Embedding of `FeatureEngineer.create_kitchen_features`
(`src/src/pipelines/feature_engineering.py`, lines 86-148): aggregate over the
exact (station, item) rows when any exist, otherwise over the station rows,
otherwise fall back to the fixed defaults 10/2/5/20/10; `item_complexity` is
std/mean when the mean is positive and 0 otherwise. -/
noncomputable def create_kitchen_features (df : List KitchenRow)
    (station_id menu_item_id : ℤ) : KitchenFeatures :=
  let item_station_df := pairRows df station_id menu_item_id
  let base : PrepAgg :=
    if 0 < item_station_df.length then aggOf (prepTimes item_station_df)
    else
      let station_df := stationRows df station_id
      if 0 < station_df.length then aggOf (prepTimes station_df)
      else { avg := 10, std := 2, minv := 5, maxv := 20, med := 10 }
  { avg_prep_time := base.avg, std_prep_time := base.std,
    min_prep_time := base.minv, max_prep_time := base.maxv,
    median_prep_time := base.med,
    item_complexity :=
      if 0 < base.avg then base.std / ((base.avg : ℚ) : ℝ) else 0 }

/-- C6: `create_kitchen_features` aggregates mean/std/min/max/median over the
exact (station, item) rows; with zero matching rows it falls back to
station-only aggregates; with zero station rows it returns the fixed non-zero
defaults (10.0, 2.0, 5.0, 20.0, 10.0) instead of failing; and
`item_complexity` is std/mean, or 0 when the mean is not positive. -/
theorem create_kitchen_features_fallback_chain (df : List KitchenRow) (s i : ℤ) :
    (pairRows df s i ≠ [] →
      create_kitchen_features df s i =
        { avg_prep_time := mean (prepTimes (pairRows df s i)),
          std_prep_time := sampleStd (prepTimes (pairRows df s i)),
          min_prep_time := listMin (prepTimes (pairRows df s i)),
          max_prep_time := listMax (prepTimes (pairRows df s i)),
          median_prep_time := median (prepTimes (pairRows df s i)),
          item_complexity :=
            if 0 < mean (prepTimes (pairRows df s i)) then
              sampleStd (prepTimes (pairRows df s i)) /
                ((mean (prepTimes (pairRows df s i)) : ℚ) : ℝ)
            else 0 }) ∧
    (pairRows df s i = [] → stationRows df s ≠ [] →
      create_kitchen_features df s i =
        { avg_prep_time := mean (prepTimes (stationRows df s)),
          std_prep_time := sampleStd (prepTimes (stationRows df s)),
          min_prep_time := listMin (prepTimes (stationRows df s)),
          max_prep_time := listMax (prepTimes (stationRows df s)),
          median_prep_time := median (prepTimes (stationRows df s)),
          item_complexity :=
            if 0 < mean (prepTimes (stationRows df s)) then
              sampleStd (prepTimes (stationRows df s)) /
                ((mean (prepTimes (stationRows df s)) : ℚ) : ℝ)
            else 0 }) ∧
    (stationRows df s = [] →
      create_kitchen_features df s i =
        { avg_prep_time := 10, std_prep_time := 2, min_prep_time := 5,
          max_prep_time := 20, median_prep_time := 10,
          item_complexity := ((2 : ℝ) / ((10 : ℚ) : ℝ)) }) ∧
    ((create_kitchen_features df s i).item_complexity =
      if 0 < (create_kitchen_features df s i).avg_prep_time then
        (create_kitchen_features df s i).std_prep_time /
          (((create_kitchen_features df s i).avg_prep_time : ℚ) : ℝ)
      else 0) := by
  refine ⟨?_, ?_, ?_, ?_⟩
  · intro hne
    have hlen : 0 < (pairRows df s i).length := List.length_pos.mpr hne
    simp only [create_kitchen_features, if_pos hlen, aggOf]
  · intro hpe hsne
    have hlen : ¬ 0 < (pairRows df s i).length := by simp [hpe]
    have hslen : 0 < (stationRows df s).length := List.length_pos.mpr hsne
    simp only [create_kitchen_features, if_neg hlen, if_pos hslen, aggOf]
  · intro hse
    have hpe : pairRows df s i = [] := by
      have hall := List.filter_eq_nil_iff.mp hse
      refine List.filter_eq_nil_iff.mpr fun r hr => ?_
      have := hall r hr
      simp only [Bool.and_eq_true, not_and] at this ⊢
      intro hst
      exact absurd hst this
    have hlen : ¬ 0 < (pairRows df s i).length := by simp [hpe]
    have hslen : ¬ 0 < (stationRows df s).length := by simp [hse]
    simp only [create_kitchen_features, if_neg hlen, if_neg hslen]
    norm_num
  · rfl

/-- Concrete two-row kitchen history used by the C6 witness. -/
def kitchenHistOne : List KitchenRow :=
  [{ station_id := 1, menu_item_id := 1, prep_time_minutes := 4 },
   { station_id := 1, menu_item_id := 2, prep_time_minutes := 8 }]

/-- Witness for C6: the defaults tier at an empty history and the exact-pair
tier at a two-row history, both via the fallback theorem. -/
theorem create_kitchen_features_fallback_chain_witness :
    stationRows ([] : List KitchenRow) 1 = [] ∧
    create_kitchen_features [] 1 1 =
      { avg_prep_time := 10, std_prep_time := 2, min_prep_time := 5,
        max_prep_time := 20, median_prep_time := 10,
        item_complexity := ((2 : ℝ) / ((10 : ℚ) : ℝ)) } ∧
    pairRows kitchenHistOne 1 1 ≠ [] ∧
    create_kitchen_features kitchenHistOne 1 1 =
      { avg_prep_time := mean (prepTimes (pairRows kitchenHistOne 1 1)),
        std_prep_time := sampleStd (prepTimes (pairRows kitchenHistOne 1 1)),
        min_prep_time := listMin (prepTimes (pairRows kitchenHistOne 1 1)),
        max_prep_time := listMax (prepTimes (pairRows kitchenHistOne 1 1)),
        median_prep_time := median (prepTimes (pairRows kitchenHistOne 1 1)),
        item_complexity :=
          if 0 < mean (prepTimes (pairRows kitchenHistOne 1 1)) then
            sampleStd (prepTimes (pairRows kitchenHistOne 1 1)) /
              ((mean (prepTimes (pairRows kitchenHistOne 1 1)) : ℚ) : ℝ)
          else 0 } :=
  ⟨rfl,
   (create_kitchen_features_fallback_chain [] 1 1).2.2.1 rfl,
   by decide,
   (create_kitchen_features_fallback_chain kitchenHistOne 1 1).1 (by decide)⟩

/-- Registry state for one `(model_type, restaurant_id)` pair under
`{model_dir}/{model_type}/restaurant_{id}/`: the version directories that
exist, which of them contain `model.joblib` and `metadata.json`, and the
target of the `latest` symlink (`none` when no symlink exists). -/
structure RegistryState where
  dirs : List String
  modelFiles : List String
  metaFiles : List String
  latest : Option String
deriving DecidableEq

/-- Truth of `os.path.exists(latest_link)`: `os.path.exists` follows the
symlink, so it holds exactly when the link exists and its target directory
exists. -/
def latestExists (s : RegistryState) : Bool :=
  match s.latest with
  | some v => s.dirs.contains v
  | none => false

/-- Embedding of `ModelLoader.get_latest_model_path`
(`src/src/utils/model_loader.py`, lines 31-57): return the resolved `latest`
directory when `os.path.exists(latest_link)`, else `None`. -/
def get_latest_model_path (s : RegistryState) : Option String :=
  if latestExists s then s.latest else none

/-- Step 1 of `_save_model`: `os.makedirs(model_path, exist_ok=True)`. -/
def mkVersionDir (s : RegistryState) (v : String) : RegistryState :=
  { s with dirs := if s.dirs.contains v then s.dirs else v :: s.dirs }

/-- Step 2 of `_save_model`: `joblib.dump(model, model_file)`. -/
def writeModelFile (s : RegistryState) (v : String) : RegistryState :=
  { s with modelFiles := if s.modelFiles.contains v then s.modelFiles else v :: s.modelFiles }

/-- Step 3 of `_save_model`: `json.dump(metadata, f)` into `metadata.json`. -/
def writeMetadataFile (s : RegistryState) (v : String) : RegistryState :=
  { s with metaFiles := if s.metaFiles.contains v then s.metaFiles else v :: s.metaFiles }

/-- Step 4 of `_save_model`: `if os.path.exists(latest_link): os.remove(latest_link)`. -/
def removeLatestIfExists (s : RegistryState) : RegistryState :=
  if latestExists s then { s with latest := none } else s

/-- Step 5 of `_save_model`: `os.symlink(model_path, latest_link)`, which
raises `FileExistsError` when the link still exists (only possible for a
dangling link that step 4 skipped). -/
def symlinkLatest (s : RegistryState) (v : String) : Except String RegistryState :=
  match s.latest with
  | some _ => .error "FileExistsError"
  | none => .ok { s with latest := some v }

/-- Embedding of `ModelTrainingPipeline._save_model`
(`src/src/training/train_pipeline.py`, lines 457-513) as its sequence of
filesystem steps, returning every intermediate state a concurrent reader can
observe (whole-file writes are taken as atomic steps, the granularity the
spec's registry invariant speaks at). -/
def save_model (s0 : RegistryState) (v : String) : Except String (List RegistryState) :=
  let s1 := mkVersionDir s0 v
  let s2 := writeModelFile s1 v
  let s3 := writeMetadataFile s2 v
  let s4 := removeLatestIfExists s3
  match symlinkLatest s4 v with
  | .ok s5 => .ok [s0, s1, s2, s3, s4, s5]
  | .error e => .error e

/-- Registry invariant from §3 of the spec: whenever `latest` points at a
version, that version directory exists and holds both the serialized model
and its metadata file. -/
def RegistryInv (s : RegistryState) : Prop :=
  ∀ w, s.latest = some w →
    s.dirs.contains w = true ∧ s.modelFiles.contains w = true ∧
      s.metaFiles.contains w = true

/-- Safety of one observable state: resolving `latest` never yields a version
directory that is missing its metadata file (or its model file). -/
def LatestSafe (s : RegistryState) : Prop :=
  ∀ d, get_latest_model_path s = some d →
    s.metaFiles.contains d = true ∧ s.modelFiles.contains d = true

/-- Membership in a `contains`-style list is preserved by the conditional
cons used by the save steps. -/
theorem contains_condCons (l : List String) (v w : String)
    (h : l.contains w = true) :
    (if l.contains v then l else v :: l).contains w = true := by
  split
  · exact h
  · simp only [List.contains_cons, h, Bool.or_true]

/-- The conditional cons always contains the consed element. -/
theorem contains_condCons_self (l : List String) (v : String) :
    (if l.contains v then l else v :: l).contains v = true := by
  split
  · assumption
  · simp [List.contains_cons]

/-- A state satisfying the registry invariant is safe for readers. -/
theorem latestSafe_of_inv (s : RegistryState) (hs : RegistryInv s) : LatestSafe s := by
  intro d hd
  unfold get_latest_model_path at hd
  split at hd
  · have h := hs d hd
    exact ⟨h.2.2, h.2.1⟩
  · cases hd

/-- Repointing `latest` at a version whose files are present is safe. -/
theorem latestSafe_of_complete (t : RegistryState) (v : String)
    (hm : t.modelFiles.contains v = true) (hmeta : t.metaFiles.contains v = true) :
    LatestSafe { t with latest := some v } := by
  intro d hd
  unfold get_latest_model_path at hd
  split at hd
  · obtain rfl := Option.some.inj hd
    exact ⟨hmeta, hm⟩
  · cases hd

/-- C3: starting from any registry state satisfying the §3 invariant, the
save step writes the model file and `metadata.json` into the new version
directory before repointing `latest`; the save completes, and every
intermediate state of the save (including the final one) resolves `latest`
only to a version directory already containing its metadata and model
files. -/
theorem save_model_latest_never_incomplete (s0 : RegistryState) (v : String)
    (hinv : RegistryInv s0) :
    (∃ tr, save_model s0 v = .ok tr) ∧
    ∀ tr, save_model s0 v = .ok tr → ∀ s ∈ tr, LatestSafe s := by
  have hinv1 : RegistryInv (mkVersionDir s0 v) := by
    intro w hw
    have h0 := hinv w hw
    exact ⟨contains_condCons _ _ _ h0.1, h0.2.1, h0.2.2⟩
  have hinv2 : RegistryInv (writeModelFile (mkVersionDir s0 v) v) := by
    intro w hw
    have h1 := hinv1 w hw
    exact ⟨h1.1, contains_condCons _ _ _ h1.2.1, h1.2.2⟩
  have hinv3 : RegistryInv (writeMetadataFile (writeModelFile (mkVersionDir s0 v) v) v) := by
    intro w hw
    have h2 := hinv2 w hw
    exact ⟨h2.1, h2.2.1, contains_condCons _ _ _ h2.2.2⟩
  have hinv4 : RegistryInv (removeLatestIfExists
      (writeMetadataFile (writeModelFile (mkVersionDir s0 v) v) v)) := by
    by_cases he : latestExists
        (writeMetadataFile (writeModelFile (mkVersionDir s0 v) v) v) = true
    · intro w hw
      unfold removeLatestIfExists at hw
      rw [if_pos he] at hw
      cases hw
    · intro w hw
      unfold removeLatestIfExists at hw ⊢
      rw [if_neg he] at hw ⊢
      exact hinv3 w hw
  have hnone : (removeLatestIfExists
      (writeMetadataFile (writeModelFile (mkVersionDir s0 v) v) v)).latest = none := by
    unfold removeLatestIfExists
    split
    · rfl
    · rename_i hne
      cases hl : (writeMetadataFile (writeModelFile (mkVersionDir s0 v) v) v).latest with
      | none => rfl
      | some w =>
        exfalso
        apply hne
        unfold latestExists
        rw [hl]
        exact (hinv3 w hl).1
  have hrun : save_model s0 v = .ok
      [s0, mkVersionDir s0 v, writeModelFile (mkVersionDir s0 v) v,
       writeMetadataFile (writeModelFile (mkVersionDir s0 v) v) v,
       removeLatestIfExists (writeMetadataFile (writeModelFile (mkVersionDir s0 v) v) v),
       { removeLatestIfExists (writeMetadataFile (writeModelFile (mkVersionDir s0 v) v) v)
           with latest := some v }] := by
    unfold save_model symlinkLatest
    simp only [hnone]
  have hmodel4 : (removeLatestIfExists
      (writeMetadataFile (writeModelFile (mkVersionDir s0 v) v) v)).modelFiles.contains v = true := by
    unfold removeLatestIfExists
    split
    · exact contains_condCons_self _ _
    · exact contains_condCons_self _ _
  have hmeta4 : (removeLatestIfExists
      (writeMetadataFile (writeModelFile (mkVersionDir s0 v) v) v)).metaFiles.contains v = true := by
    unfold removeLatestIfExists
    split
    · exact contains_condCons_self _ _
    · exact contains_condCons_self _ _
  refine ⟨⟨_, hrun⟩, ?_⟩
  intro tr htr s hs
  rw [hrun] at htr
  obtain rfl := Except.ok.inj htr
  simp only [List.mem_cons, List.not_mem_nil, or_false] at hs
  rcases hs with rfl | rfl | rfl | rfl | rfl | rfl
  · exact latestSafe_of_inv _ hinv
  · exact latestSafe_of_inv _ hinv1
  · exact latestSafe_of_inv _ hinv2
  · exact latestSafe_of_inv _ hinv3
  · exact latestSafe_of_inv _ hinv4
  · exact latestSafe_of_complete _ _ hmodel4 hmeta4

/-- Witness for C3: the save theorem applied to the empty registry. -/
theorem save_model_latest_never_incomplete_witness :
    RegistryInv { dirs := [], modelFiles := [], metaFiles := [], latest := none } ∧
    ((∃ tr, save_model { dirs := [], modelFiles := [], metaFiles := [], latest := none }
        "20250101_000000" = .ok tr) ∧
      ∀ tr, save_model { dirs := [], modelFiles := [], metaFiles := [], latest := none }
          "20250101_000000" = .ok tr → ∀ s ∈ tr, LatestSafe s) :=
  ⟨fun _ hw => Option.noConfusion hw,
   save_model_latest_never_incomplete
     { dirs := [], modelFiles := [], metaFiles := [], latest := none }
     "20250101_000000" (fun _ hw => Option.noConfusion hw)⟩

/-- Mean of a list of reals, `np.mean`; junk 0 on the empty list. -/
noncomputable def meanR (l : List ℝ) : ℝ := l.sum / (l.length : ℝ)

/-- Population variance (`np.var`, zero delta degrees of freedom). -/
noncomputable def popVar (l : List ℝ) : ℝ :=
  ((l.map (fun x => (x - meanR l) ^ 2)).sum) / (l.length : ℝ)

/-- Population standard deviation, `np.std`. -/
noncomputable def npStd (l : List ℝ) : ℝ := Real.sqrt (popVar l)

/-- State of `InventoryOptimizationModel` (`src/src/models/inventory_model.py`):
cost parameters, the z-score derived from the service level, and the trained
flag.  The z-score lookup (`scipy.stats.norm.ppf`) is opaque. -/
structure InventoryOptimizationModel where
  holding_cost_per_unit_per_day : ℚ
  stockout_cost_per_unit : ℚ
  service_level : ℚ
  z_score : ℝ
  is_trained : Bool

/-- Result dictionary of `predict_reorder_point`. -/
structure ReorderPointResult where
  reorder_point : ℝ
  safety_stock : ℝ
  avg_demand_during_lead_time : ℚ
  service_level : ℚ

/-- Embedding of `InventoryOptimizationModel.predict_reorder_point`
(`src/src/models/inventory_model.py`, lines 68-102): guarded by the trained
flag, then mean lead-time demand plus z-score safety stock. -/
noncomputable def InventoryOptimizationModel.predict_reorder_point
    (m : InventoryOptimizationModel) (daily_consumption_rate : ℚ)
    (lead_time_days : ℕ) (consumption_std_dev : ℚ) :
    Except String ReorderPointResult :=
  if m.is_trained = false then .error "Model must be trained first"
  else
    let avg_demand_during_lead_time := daily_consumption_rate * lead_time_days
    let safety_stock : ℝ :=
      m.z_score * (consumption_std_dev : ℝ) * Real.sqrt (lead_time_days : ℝ)
    .ok { reorder_point := max ((avg_demand_during_lead_time : ℝ) + safety_stock) 0,
          safety_stock := max safety_stock 0,
          avg_demand_during_lead_time := avg_demand_during_lead_time,
          service_level := m.service_level }

/-- Result dictionary of `predict_order_quantity`. -/
structure EOQResult where
  optimal_order_quantity : ℝ
  orders_per_year : ℝ
  average_inventory : ℝ
  total_cost : ℝ

/-- Embedding of `InventoryOptimizationModel.predict_order_quantity`
(`src/src/models/inventory_model.py`, lines 104-146).  Note it performs no
trained-flag check, returns zeros when any input is nonpositive, and floors
both the returned order quantity and orders-per-year at 1 via `max(., 1)`. -/
noncomputable def InventoryOptimizationModel.predict_order_quantity
    (_m : InventoryOptimizationModel)
    (annual_demand order_cost holding_cost : ℚ) : EOQResult :=
  if annual_demand ≤ 0 ∨ order_cost ≤ 0 ∨ holding_cost ≤ 0 then
    { optimal_order_quantity := 0, orders_per_year := 0,
      total_cost := 0, average_inventory := 0 }
  else
    let eoq : ℝ := Real.sqrt (((2 * annual_demand * order_cost) / holding_cost : ℚ) : ℝ)
    let orders_per_year : ℝ := if 0 < eoq then (annual_demand : ℝ) / eoq else 0
    let average_inventory : ℝ := eoq / 2
    let total_cost : ℝ :=
      orders_per_year * (order_cost : ℝ) + average_inventory * (holding_cost : ℝ)
    { optimal_order_quantity := max eoq 1, orders_per_year := max orders_per_year 1,
      average_inventory := average_inventory, total_cost := total_cost }

/-- Result dictionary of `predict_stock_forecast`; `days_until_stockout` is
`none` for `np.inf` (zero consumption rate). -/
structure StockForecastResult where
  projected_stock_in_30_days : ℚ
  days_until_stockout : Option ℚ
  will_stockout : Bool
  stock_status : String
deriving DecidableEq

/-- Embedding of `InventoryOptimizationModel.predict_stock_forecast`
(`src/src/models/inventory_model.py`, lines 148-189).  Note it performs no
trained-flag check either. -/
def InventoryOptimizationModel.predict_stock_forecast
    (_m : InventoryOptimizationModel)
    (current_stock daily_consumption_rate : ℚ) (days_ahead : ℚ) :
    StockForecastResult :=
  let projected_stock := current_stock - daily_consumption_rate * days_ahead
  let days_until_stockout : Option ℚ :=
    if 0 < daily_consumption_rate then some (current_stock / daily_consumption_rate)
    else none
  let stock_status :=
    if projected_stock < 0 then "critical"
    else if projected_stock < daily_consumption_rate * 7 then "low"
    else if projected_stock < daily_consumption_rate * 14 then "medium"
    else "healthy"
  { projected_stock_in_30_days := max projected_stock 0,
    days_until_stockout := days_until_stockout,
    will_stockout := decide (projected_stock < 0),
    stock_status := stock_status }

/-- State of `KitchenPerformanceModel`
(`src/backend/src/models/kitchen_model.py`): the fitted scaler and LightGBM
regressor are opaque per-row functions, plus the trained flag. -/
structure KitchenPerformanceModel where
  scaler_transform : List ℝ → List ℝ
  regressor : List ℝ → ℝ
  feature_importances : List (String × ℝ)
  is_trained : Bool

/-- Embedding of `KitchenPerformanceModel.predict`
(`src/backend/src/models/kitchen_model.py`, lines 82-99): guard, scale,
predict, then clamp elementwise with `np.maximum(predictions, 0)`. -/
def KitchenPerformanceModel.predict (m : KitchenPerformanceModel)
    (X : List (List ℝ)) : Except String (List ℝ) :=
  if m.is_trained = false then .error "Model must be trained first"
  else .ok ((X.map (fun row => m.regressor (m.scaler_transform row))).map
    (fun y => max y 0))

/-- Embedding of `KitchenPerformanceModel.predict_with_confidence`
(`src/backend/src/models/kitchen_model.py`, lines 101-120): a dictionary with
keys `predictions`, `lower_bound` and `upper_bound`, the bounds using
1.96 times a heuristic noise estimate of 0.2 times the batch std. -/
noncomputable def KitchenPerformanceModel.predict_with_confidence
    (m : KitchenPerformanceModel) (X : List (List ℝ)) :
    Except String (List (String × List ℝ)) :=
  match m.predict X with
  | .error e => .error e
  | .ok predictions =>
    let std_pred := npStd predictions * 0.2
    .ok [("predictions", predictions),
         ("lower_bound", predictions.map (fun p => max (p - 1.96 * std_pred) 0)),
         ("upper_bound", predictions.map (fun p => p + 1.96 * std_pred))]

/-- State of `CustomerLTVModel` (`src/src/models/ltv_model.py`): opaque label
encoding (which raises on a category unseen in training), scaler, random
forest, and the trained flag. -/
structure CustomerLTVModel where
  label_encode : List ℝ → Except String (List ℝ)
  scaler_transform : List ℝ → List ℝ
  regressor : List ℝ → ℝ
  feature_importances : List (String × ℝ)
  is_trained : Bool

/-- Embedding of `CustomerLTVModel.predict` (`src/src/models/ltv_model.py`,
lines 95-120): guard, encode categoricals, scale, predict, then clamp with
`np.maximum(predictions, 0)`. -/
def CustomerLTVModel.predict (m : CustomerLTVModel) (X : List (List ℝ)) :
    Except String (List ℝ) :=
  if m.is_trained = false then .error "Model must be trained first"
  else
    match X.mapM m.label_encode with
    | .error e => .error e
    | .ok encoded =>
      .ok ((encoded.map (fun row => m.regressor (m.scaler_transform row))).map
        (fun y => max y 0))

/-- State of `DemandForecastModel`
(`src/backend/src/src/models/demand_model.py`): the XGBoost component, the
optional Prophet component (`none` after a Prophet fit failure), the blend
weight and the trained flag.  Dates are rational timestamps. -/
structure DemandForecastModel where
  ensemble_weight : ℝ
  scaler_transform : List ℝ → List ℝ
  xgb_regressor : List ℝ → ℝ
  prophet : Option (ℚ → ℝ)
  feature_importances : List (String × ℝ)
  is_trained : Bool

/-- Embedding of `DemandForecastModel.predict`
(`src/backend/src/src/models/demand_model.py`, lines 115-156): guard, XGBoost
on scaled features, weighted blend with Prophet when available, then clamp
with `np.maximum(ensemble_pred, 0)`. -/
def DemandForecastModel.predict (m : DemandForecastModel)
    (X : List (List ℝ)) (dates : List ℚ) : Except String (List ℝ) :=
  if m.is_trained = false then .error "Model must be trained before prediction"
  else
    let xgb_pred := X.map (fun row => m.xgb_regressor (m.scaler_transform row))
    let ensemble_pred :=
      match m.prophet with
      | some p =>
        (xgb_pred.zip (dates.map p)).map
          (fun (q : ℝ × ℝ) => m.ensemble_weight * q.1 + (1 - m.ensemble_weight) * q.2)
      | none => xgb_pred
    .ok (ensemble_pred.map (fun y => max y 0))

/-- Descending insertion by importance, the
`sorted(..., key=lambda x: x[1], reverse=True)` of `get_feature_importance`. -/
noncomputable def insertDescBySnd (x : String × ℝ) :
    List (String × ℝ) → List (String × ℝ)
  | [] => [x]
  | y :: ys => if y.2 ≤ x.2 then x :: y :: ys else y :: insertDescBySnd x ys

/-- Sort feature importances in descending order. -/
noncomputable def sortDescBySnd (l : List (String × ℝ)) : List (String × ℝ) :=
  l.foldr insertDescBySnd []

/-- State of `CustomerChurnModel` (`src/src/models/churn_model.py`): opaque
label encoding, scaler, the positive-class probability of the XGBoost
classifier, its fitted feature importances, and the trained flag. -/
structure CustomerChurnModel where
  threshold : ℚ
  label_encode : List ℝ → Except String (List ℝ)
  scaler_transform : List ℝ → List ℝ
  classifier_proba : List ℝ → ℝ
  feature_importances : List (String × ℝ)
  is_trained : Bool

/-- Embedding of `CustomerChurnModel.predict_proba`
(`src/src/models/churn_model.py`, lines 105-127): guard, encode categoricals,
scale, and return the positive-class probabilities. -/
def CustomerChurnModel.predict_proba (m : CustomerChurnModel)
    (X : List (List ℝ)) : Except String (List ℝ) :=
  if m.is_trained = false then .error "Model must be trained first"
  else
    match X.mapM m.label_encode with
    | .error e => .error e
    | .ok encoded =>
      .ok (encoded.map (fun row => m.classifier_proba (m.scaler_transform row)))

/-- Embedding of `CustomerChurnModel.get_feature_importance`
(`src/src/models/churn_model.py`, lines 198-216): guard, then the fitted
importances sorted in descending order. -/
noncomputable def CustomerChurnModel.get_feature_importance
    (m : CustomerChurnModel) : Except String (List (String × ℝ)) :=
  if m.is_trained = false then .error "Model must be trained first"
  else .ok (sortDescBySnd m.feature_importances)

/-- Rounding a real to two decimals, Python `round(x, 2)` under the same
round-half-up idealisation as `round2` (no theorem evaluates it at a tie). -/
noncomputable def round2R (x : ℝ) : ℝ := ((round (x * 100) : ℤ) : ℝ) / 100

/-- Rounding a real to four decimals, Python `round(x, 4)`. -/
noncomputable def round4R (x : ℝ) : ℝ := ((round (x * 10000) : ℤ) : ℝ) / 10000

/-- Rounding a rational to four decimals, Python `round(x, 4)`. -/
def round4 (x : ℚ) : ℚ := ((round (x * 10000) : ℤ) : ℚ) / 10000

/-- Embedding of `CustomerChurnModel.predict`
(`src/src/models/churn_model.py`, lines 129-140): thresholded probabilities,
`(proba >= self.threshold).astype(int)`; the guard lives in `predict_proba`. -/
noncomputable def CustomerChurnModel.predict (m : CustomerChurnModel)
    (X : List (List ℝ)) : Except String (List ℕ) :=
  match m.predict_proba X with
  | .error e => .error e
  | .ok proba => .ok (proba.map (fun p => if (m.threshold : ℝ) ≤ p then 1 else 0))

/-- Embedding of `CustomerChurnModel.get_risk_segments`
(`src/src/models/churn_model.py`, lines 142-163): probability tiers at 0.3 and
0.6; the guard lives in `predict_proba`. -/
noncomputable def CustomerChurnModel.get_risk_segments (m : CustomerChurnModel)
    (X : List (List ℝ)) : Except String (List String) :=
  match m.predict_proba X with
  | .error e => .error e
  | .ok proba =>
    .ok (proba.map (fun p =>
      if p < 0.3 then "low_risk"
      else if p < 0.6 then "medium_risk"
      else "high_risk"))

/-- Embedding of `CustomerChurnModel.evaluate`
(`src/src/models/churn_model.py`, lines 165-196): predictions and
probabilities through the guarded paths, then the four sklearn classification
metrics (opaque external functions) rounded to four decimals. -/
noncomputable def CustomerChurnModel.evaluate (m : CustomerChurnModel)
    (precision_score recall_score f1_score : List ℕ → List ℕ → ℝ)
    (roc_auc_score : List ℕ → List ℝ → ℝ)
    (X : List (List ℝ)) (y : List ℕ) : Except String (List (String × ℝ)) :=
  match m.predict X with
  | .error e => .error e
  | .ok predictions =>
    match m.predict_proba X with
    | .error e => .error e
    | .ok proba =>
      .ok [("precision", round4R (precision_score y predictions)),
           ("recall", round4R (recall_score y predictions)),
           ("f1", round4R (f1_score y predictions)),
           ("auc_roc", round4R (roc_auc_score y proba))]

/-- Embedding of `CustomerLTVModel.get_ltv_segments`
(`src/src/models/ltv_model.py`, lines 122-147): batch-relative 33rd/67th
percentile tiers of the guarded predictions; `np.percentile` is an opaque
external numeric routine. -/
noncomputable def CustomerLTVModel.get_ltv_segments (m : CustomerLTVModel)
    (np_percentile : List ℝ → ℚ → ℝ) (X : List (List ℝ)) :
    Except String (List String) :=
  match m.predict X with
  | .error e => .error e
  | .ok ltv =>
    .ok (ltv.map (fun v =>
      if v < np_percentile ltv 33 then "low_value"
      else if v < np_percentile ltv 67 then "medium_value"
      else "high_value"))

/-- Embedding of `CustomerLTVModel.evaluate` (`src/src/models/ltv_model.py`,
lines 149-181): guarded predictions, then mae/rmse/r2 (sklearn metrics
opaque) and mae as a percentage of the mean target, rounded. -/
noncomputable def CustomerLTVModel.evaluate (m : CustomerLTVModel)
    (mean_absolute_error mean_squared_error r2_score : List ℝ → List ℝ → ℝ)
    (X : List (List ℝ)) (y : List ℝ) : Except String (List (String × ℝ)) :=
  match m.predict X with
  | .error e => .error e
  | .ok predictions =>
    .ok [("mae", round2R (mean_absolute_error y predictions)),
         ("rmse", round2R (Real.sqrt (mean_squared_error y predictions))),
         ("r2", round4R (r2_score y predictions)),
         ("mae_percentage",
           round2R (if 0 < meanR y then
             mean_absolute_error y predictions / meanR y * 100 else 0))]

/-- Embedding of `CustomerLTVModel.get_feature_importance`
(`src/src/models/ltv_model.py`, lines 183-201): guard, then the fitted
importances sorted in descending order. -/
noncomputable def CustomerLTVModel.get_feature_importance
    (m : CustomerLTVModel) : Except String (List (String × ℝ)) :=
  if m.is_trained = false then .error "Model must be trained first"
  else .ok (sortDescBySnd m.feature_importances)

/-- Embedding of `KitchenPerformanceModel.evaluate`
(`src/backend/src/models/kitchen_model.py`, lines 122-154): guarded
predictions, mae/rmse/r2 (opaque sklearn metrics) plus the within-5-minutes
share `np.mean(np.abs(y - pred) <= 5) * 100`. -/
noncomputable def KitchenPerformanceModel.evaluate (m : KitchenPerformanceModel)
    (mean_absolute_error mean_squared_error r2_score : List ℝ → List ℝ → ℝ)
    (X : List (List ℝ)) (y : List ℝ) : Except String (List (String × ℝ)) :=
  match m.predict X with
  | .error e => .error e
  | .ok predictions =>
    .ok [("mae", round2R (mean_absolute_error y predictions)),
         ("rmse", round2R (Real.sqrt (mean_squared_error y predictions))),
         ("r2", round4R (r2_score y predictions)),
         ("within_5_minutes",
           round2R (meanR ((y.zip predictions).map
             (fun p => if |p.1 - p.2| ≤ 5 then (1 : ℝ) else 0)) * 100))]

/-- Embedding of `KitchenPerformanceModel.get_feature_importance`
(`src/backend/src/models/kitchen_model.py`, lines 156-174). -/
noncomputable def KitchenPerformanceModel.get_feature_importance
    (m : KitchenPerformanceModel) : Except String (List (String × ℝ)) :=
  if m.is_trained = false then .error "Model must be trained first"
  else .ok (sortDescBySnd m.feature_importances)

/-- Embedding of `DemandForecastModel.evaluate`
(`src/backend/src/src/models/demand_model.py`, lines 192-228): guarded
ensemble predictions, mae/rmse/r2 (opaque sklearn metrics), the mape variant
`np.mean(np.abs((y - pred) / (y + 1))) * 100` and the within-5-orders
share. -/
noncomputable def DemandForecastModel.evaluate (m : DemandForecastModel)
    (mean_absolute_error mean_squared_error r2_score : List ℝ → List ℝ → ℝ)
    (X : List (List ℝ)) (y : List ℝ) (dates : List ℚ) :
    Except String (List (String × ℝ)) :=
  match m.predict X dates with
  | .error e => .error e
  | .ok predictions =>
    .ok [("mae", round2R (mean_absolute_error y predictions)),
         ("rmse", round2R (Real.sqrt (mean_squared_error y predictions))),
         ("r2", round4R (r2_score y predictions)),
         ("mape",
           round2R (meanR ((y.zip predictions).map
             (fun p => |(p.1 - p.2) / (p.1 + 1)|)) * 100)),
         ("within_5_orders",
           round2R (meanR ((y.zip predictions).map
             (fun p => if |p.1 - p.2| ≤ 5 then (1 : ℝ) else 0)) * 100))]

/-- Embedding of `DemandForecastModel.get_feature_importance`
(`src/backend/src/src/models/demand_model.py`, lines 230-248). -/
noncomputable def DemandForecastModel.get_feature_importance
    (m : DemandForecastModel) : Except String (List (String × ℝ)) :=
  if m.is_trained = false then .error "Model must be trained first"
  else .ok (sortDescBySnd m.feature_importances)

/-- Recommendation dictionary of `get_recommendations`.  The reorder branch
writes the key `order_quantity` (absent from the defaults), modelled with an
`Option`; the reason strings carry a `:.0f`-formatted threshold in the
source, appended here via integer rounding (round-half-up; no theorem
evaluates a formatted reason at a tie). -/
structure RecommendationResult where
  action : String
  urgency : String
  reason : String
  recommended_order_qty : ℚ
  order_quantity : Option ℚ
deriving DecidableEq

/-- First rule of `get_recommendations`
(`src/src/models/inventory_model.py`, lines 222-226):
`if current_stock <= reorder_point`. -/
def applyReorderRule (current_stock reorder_point optimal_order_qty : ℚ)
    (r : RecommendationResult) : RecommendationResult :=
  if current_stock ≤ reorder_point then
    { r with
      action := "reorder",
      order_quantity := some optimal_order_qty,
      urgency := "high",
      reason := "Stock below reorder point (" ++ toString (round reorder_point) ++ ")" }
  else r

/-- Second rule of `get_recommendations` (lines 229-233):
`if current_stock <= min_level`. -/
def applyMinLevelRule (current_stock min_level optimal_order_qty : ℚ)
    (r : RecommendationResult) : RecommendationResult :=
  if current_stock ≤ min_level then
    { r with
      action := "emergency_reorder",
      urgency := "critical",
      reason := "Stock below minimum level (" ++ toString (round min_level) ++ ")",
      recommended_order_qty := optimal_order_qty * (3 / 2) }
  else r

/-- Third rule of `get_recommendations` (lines 236-240):
`if max_level and current_stock >= max_level`, where Python truthiness makes
both `None` and `0` skip the branch. -/
def applyMaxLevelRule (max_level : Option ℚ) (current_stock : ℚ)
    (r : RecommendationResult) : RecommendationResult :=
  match max_level with
  | some mx =>
    if mx ≠ 0 ∧ mx ≤ current_stock then
      { r with
        action := "reduce_orders",
        urgency := "medium",
        reason := "Stock above maximum level (" ++ toString (round mx) ++ ")",
        recommended_order_qty := 0 }
    else r
  | none => r

/-- Embedding of `InventoryOptimizationModel.get_recommendations`
(`src/src/models/inventory_model.py`, lines 191-242): the hold defaults
overridden in order by the reorder, minimum-level, and maximum-level rules.
Note it performs no trained-flag check. -/
def InventoryOptimizationModel.get_recommendations
    (_m : InventoryOptimizationModel)
    (current_stock reorder_point optimal_order_qty _daily_consumption_rate
      min_level : ℚ) (max_level : Option ℚ) : RecommendationResult :=
  applyMaxLevelRule max_level current_stock
    (applyMinLevelRule current_stock min_level optimal_order_qty
      (applyReorderRule current_stock reorder_point optimal_order_qty
        { action := "hold", urgency := "low",
          reason := "Stock level is healthy",
          recommended_order_qty := 0, order_quantity := none }))

/-- Metrics dictionary of the inventory model's `evaluate`. -/
structure InventoryEvalResult where
  actual_service_level : ℚ
  target_service_level : ℚ
  stockout_rate : ℚ
  cost_error_percentage : ℚ
deriving DecidableEq

/-- Embedding of `InventoryOptimizationModel.evaluate`
(`src/src/models/inventory_model.py`, lines 388-421): stockout rate and cost
error from the arguments, with Python float division raising
`ZeroDivisionError` on a zero divisor.  Note it performs no trained-flag
check. -/
def InventoryOptimizationModel.evaluate (m : InventoryOptimizationModel)
    (actual_stockouts total_periods actual_holding_cost
      predicted_holding_cost : ℚ) : Except String InventoryEvalResult :=
  if total_periods = 0 then .error "ZeroDivisionError: float division by zero"
  else if actual_holding_cost = 0 then
    .error "ZeroDivisionError: float division by zero"
  else
    .ok { actual_service_level := round4 (1 - actual_stockouts / total_periods),
          target_service_level := m.service_level,
          stockout_rate := round2 (actual_stockouts / total_periods * 100),
          cost_error_percentage :=
            round2 (|actual_holding_cost - predicted_holding_cost| /
              actual_holding_cost * 100) }

/-- Python dictionary lookup `d[k]` on a string-keyed dict of float arrays:
raises `KeyError` when the key is absent. -/
def dictGet (d : List (String × List ℝ)) (k : String) : Except String (List ℝ) :=
  match d.find? (fun kv => kv.1 == k) with
  | some kv => .ok kv.2
  | none => .error ("KeyError: " ++ k)

/-- Python indexing `a[i]` on a float array: raises `IndexError` when out of
range. -/
def listGet (l : List ℝ) (i : ℕ) : Except String ℝ :=
  match l.get? i with
  | some x => .ok x
  | none => .error "IndexError"

/-- Rounding to one decimal, Python `round(x, 1)` (ties unreachable here). -/
noncomputable def round1 (x : ℝ) : ℝ := ((round (x * 10) : ℤ) : ℝ) / 10

/-- Python `max` over a list: raises `ValueError` on an empty sequence. -/
def pyMax (l : List ℝ) : Except String ℝ :=
  match l with
  | [] => .error "ValueError: max of empty sequence"
  | x :: xs => .ok (xs.foldl max x)

/-- Row built by `pd.DataFrame([features])` from the kitchen feature
dictionary, in insertion order of its keys. -/
noncomputable def featuresToRow (ft : KitchenFeatures) : List ℝ :=
  [(ft.avg_prep_time : ℝ), ft.std_prep_time, (ft.min_prep_time : ℝ),
   (ft.max_prep_time : ℝ), (ft.median_prep_time : ℝ), ft.item_complexity]

/-- Result dictionary documented for
`KitchenPredictionService.predict_prep_time`. -/
structure PrepTimeResult where
  station_id : ℤ
  menu_item_id : ℤ
  predicted_prep_time_minutes : ℝ
  lower_bound_minutes : ℝ
  upper_bound_minutes : ℝ
  confidence : ℚ

namespace KitchenPredictionService

/-- Embedding of `KitchenPredictionService.predict_prep_time`
(`src/src/services/kitchen_service.py`, lines 51-86): derive kitchen features,
call the loaded model's `predict_with_confidence`, then read
`pred_result[prediction][0]` and the bounds.  The model's dictionary carries
the key `predictions`, so that first lookup raises `KeyError`. -/
noncomputable def predict_prep_time (model : KitchenPerformanceModel)
    (station_id menu_item_id : ℤ) (historical_kitchen_data : List KitchenRow) :
    Except String PrepTimeResult :=
  match model.predict_with_confidence
      [featuresToRow
        (create_kitchen_features historical_kitchen_data station_id menu_item_id)] with
  | .error e => .error e
  | .ok pred_result =>
    match dictGet pred_result "prediction" with
    | .error e => .error e
    | .ok preds =>
      match listGet preds 0 with
      | .error e => .error e
      | .ok p0 =>
        match dictGet pred_result "lower_bound" with
        | .error e => .error e
        | .ok lbs =>
          match listGet lbs 0 with
          | .error e => .error e
          | .ok lb0 =>
            match dictGet pred_result "upper_bound" with
            | .error e => .error e
            | .ok ubs =>
              match listGet ubs 0 with
              | .error e => .error e
              | .ok ub0 =>
                .ok { station_id := station_id, menu_item_id := menu_item_id,
                      predicted_prep_time_minutes := round1 p0,
                      lower_bound_minutes := round1 lb0,
                      upper_bound_minutes := round1 ub0,
                      confidence := 85 / 100 }

/-- Result dictionary of `predict_batch_prep_time` (the `generated_at`
timestamp is outside the model). -/
structure BatchPrepTimeResult where
  batch_size : ℕ
  item_predictions : List PrepTimeResult
  estimated_total_time_minutes : ℝ

/-- The per-order loop of `predict_batch_prep_time`: call `predict_prep_time`
for each order in sequence, appending the results; an exception in any
iteration propagates immediately. -/
noncomputable def collect_predictions (model : KitchenPerformanceModel)
    (historical_kitchen_data : List KitchenRow) :
    List (ℤ × ℤ) → Except String (List PrepTimeResult)
  | [] => .ok []
  | o :: rest =>
    match predict_prep_time model o.1 o.2 historical_kitchen_data with
    | .error e => .error e
    | .ok p =>
      match collect_predictions model historical_kitchen_data rest with
      | .error e => .error e
      | .ok ps => .ok (p :: ps)

/-- Embedding of `KitchenPredictionService.predict_batch_prep_time`
(`src/src/services/kitchen_service.py`, lines 88-121): per-order fan-out to
`predict_prep_time`, then total time as the `max` of the individual predicted
prep times (the comment in the source reads: calculate total time, max of all
items). -/
noncomputable def predict_batch_prep_time (model : KitchenPerformanceModel)
    (orders : List (ℤ × ℤ)) (historical_kitchen_data : List KitchenRow) :
    Except String BatchPrepTimeResult :=
  match collect_predictions model historical_kitchen_data orders with
  | .error e => .error e
  | .ok predictions =>
    match pyMax (predictions.map (fun p => p.predicted_prep_time_minutes)) with
    | .error e => .error e
    | .ok total_time =>
      .ok { batch_size := orders.length, item_predictions := predictions,
            estimated_total_time_minutes := total_time }

end KitchenPredictionService

/-- Metrics dictionary a per-task training run reports on success. -/
def TaskMetrics := List (String × ℚ)

/-- Per-task result dictionary of the orchestrator: each `train_*` method
wraps its whole body in try/except and reports
`(status := success)` or `(status := error, error := message)`. -/
structure TaskTrainResult where
  status : String
  error : Option String
deriving DecidableEq

/-- The try/except boundary shared by `train_demand_model`,
`train_kitchen_model`, `train_churn_model`, `train_ltv_model` and
`train_inventory_model` (`src/src/training/train_pipeline.py`): an exception
anywhere in the task body is caught and recorded, never propagated. -/
def train_task_result (body : Except String TaskMetrics) : TaskTrainResult :=
  match body with
  | .ok _ => { status := "success", error := none }
  | .error e => { status := "error", error := some e }

/-- CPython semantics of `lst[key] = value` when `lst` is a `list` and `key`
a `str`: unconditionally raises
`TypeError: list indices must be integers or slices, not str`.  The arguments
are ignored because the operation can never succeed. -/
def list_setitem_str {α : Type} (_l : List α) (_key : String) (_v : α) :
    Except String (List α) :=
  .error "TypeError: list indices must be integers or slices, not str"

/-- Report structure `train_all_models` is documented to return. -/
structure TrainAllReport where
  models : List TaskTrainResult
  total_models : ℕ
  successful : ℕ
  failed : ℕ

/-- Embedding of `ModelTrainingPipeline.train_all_models`
(`src/src/training/train_pipeline.py`, lines 427-455).  The source initialises
`results[models]` to a Python list (line 439) and then assigns
`results[models][demand] = self.train_demand_model()` (line 443): the
right-hand side runs (and catches its own exceptions), after which the
string-keyed assignment into a list raises `TypeError`.  Were the assignments
to succeed, the function would compute the summary and still return `None`,
since its body has no `return` statement; the five task bodies are passed as
parameters. -/
def train_all_models
    (demand kitchen churn ltv inventory : Except String TaskMetrics) :
    Except String (Option TrainAllReport) :=
  let models : List TaskTrainResult := []
  match list_setitem_str models "demand" (train_task_result demand) with
  | .error e => .error e
  | .ok models1 =>
    match list_setitem_str models1 "kitchen" (train_task_result kitchen) with
    | .error e => .error e
    | .ok models2 =>
      match list_setitem_str models2 "churn" (train_task_result churn) with
      | .error e => .error e
      | .ok models3 =>
        match list_setitem_str models3 "ltv" (train_task_result ltv) with
        | .error e => .error e
        | .ok models4 =>
          match list_setitem_str models4 "inventory" (train_task_result inventory) with
          | .error e => .error e
          | .ok models5 =>
            let successful :=
              (models5.filter (fun m => m.status == "success")).length
            let _summary : TrainAllReport :=
              { models := models5, total_models := models5.length,
                successful := successful, failed := models5.length - successful }
            .ok none

/-- C1: the spec says a per-task failure is recorded as a status/error
dictionary while siblings still run, and that `train_all_models` returns a
results structure over all five tasks plus a summary.  The per-task try/except
does behave that way, but `train_all_models` itself initialises its `models`
slot as a Python list and then assigns into it by string key, so every call
raises `TypeError` after the demand task and never returns any results
structure. -/
theorem train_all_models_crashes_with_typeerror :
    (∀ demand kitchen churn ltv inventory : Except String TaskMetrics,
      train_all_models demand kitchen churn ltv inventory =
        .error "TypeError: list indices must be integers or slices, not str") ∧
    (∀ e, train_task_result (.error e) = { status := "error", error := some e }) ∧
    (∀ ms, train_task_result (.ok ms) = { status := "success", error := none }) :=
  ⟨fun _ _ _ _ _ => rfl, fun _ => rfl, fun _ => rfl⟩

/-- Concrete loaded kitchen model: identity scaler, constant-zero regressor,
trained. -/
noncomputable def kmZero : KitchenPerformanceModel :=
  { scaler_transform := fun r => r, regressor := fun _ => 0,
    feature_importances := [], is_trained := true }

/-- Helper for C10: on a trained model, `predict_with_confidence` returns the
three-key dictionary whose first key is `predictions`. -/
theorem pwc_keys (m : KitchenPerformanceModel) (X : List (List ℝ))
    (h : m.is_trained = true) :
    ∃ a b c, m.predict_with_confidence X =
      .ok [("predictions", a), ("lower_bound", b), ("upper_bound", c)] := by
  unfold KitchenPerformanceModel.predict_with_confidence
    KitchenPerformanceModel.predict
  rw [h]
  simp only [Bool.true_eq_false, if_false]
  exact ⟨_, _, _, rfl⟩

/-- Helper for C10: with a trained model every `predict_prep_time` call dies
on the `prediction` key lookup. -/
theorem predict_prep_time_trained_keyerror (m : KitchenPerformanceModel)
    (s i : ℤ) (hist : List KitchenRow) (h : m.is_trained = true) :
    KitchenPredictionService.predict_prep_time m s i hist =
      .error "KeyError: prediction" := by
  obtain ⟨a, b, c, hd⟩ :=
    pwc_keys m [featuresToRow (create_kitchen_features hist s i)] h
  unfold KitchenPredictionService.predict_prep_time
  rw [hd]
  rfl

/-- C10: whenever the loaded kitchen model's `predict_with_confidence`
succeeds on the service's feature row, `predict_prep_time` fails with the
missing-key lookup `pred_result[prediction]` (the dictionary's key is
`predictions`), so it can never return its documented result; and
`predict_batch_prep_time`, which fans out per order, fails the same way on
every non-empty batch. -/
theorem predict_prep_time_always_keyerror (m : KitchenPerformanceModel)
    (s i : ℤ) (hist : List KitchenRow) (d : List (String × List ℝ))
    (hok : m.predict_with_confidence
      [featuresToRow (create_kitchen_features hist s i)] = .ok d) :
    KitchenPredictionService.predict_prep_time m s i hist =
      .error "KeyError: prediction" ∧
    ∀ orders : List (ℤ × ℤ), orders ≠ [] →
      KitchenPredictionService.predict_batch_prep_time m orders hist =
        .error "KeyError: prediction" := by
  have htr : m.is_trained = true := by
    cases h : m.is_trained
    · exfalso
      unfold KitchenPerformanceModel.predict_with_confidence
        KitchenPerformanceModel.predict at hok
      rw [h] at hok
      simp at hok
    · rfl
  refine ⟨predict_prep_time_trained_keyerror m s i hist htr, ?_⟩
  intro orders hne
  unfold KitchenPredictionService.predict_batch_prep_time
  cases orders with
  | nil => exact absurd rfl hne
  | cons o rest =>
    unfold KitchenPredictionService.collect_predictions
    rw [predict_prep_time_trained_keyerror m o.1 o.2 hist htr]

/-- Witness for C10: the key mismatch on the concrete zero model with empty
history. -/
theorem predict_prep_time_always_keyerror_witness :
    kmZero.predict_with_confidence
      [featuresToRow (create_kitchen_features [] 1 1)] =
      .ok [("predictions", [0]),
           ("lower_bound", [0]),
           ("upper_bound", [0])] ∧
    KitchenPredictionService.predict_prep_time kmZero 1 1 [] =
      .error "KeyError: prediction" ∧
    ([((1 : ℤ), (1 : ℤ))] : List (ℤ × ℤ)) ≠ [] ∧
    KitchenPredictionService.predict_batch_prep_time kmZero [(1, 1)] [] =
      .error "KeyError: prediction" := by
  have hpwc : kmZero.predict_with_confidence
      [featuresToRow (create_kitchen_features [] 1 1)] =
      .ok [("predictions", [0]), ("lower_bound", [0]), ("upper_bound", [0])] := by
    unfold KitchenPerformanceModel.predict_with_confidence
      KitchenPerformanceModel.predict kmZero
    simp only [Bool.true_eq_false, if_false, List.map_cons, List.map_nil]
    norm_num [npStd, popVar, meanR]
  have h12 := predict_prep_time_always_keyerror kmZero 1 1 [] _ hpwc
  exact ⟨hpwc, h12.1, by simp, h12.2 [(1, 1)] (by simp)⟩

/-- C5: the spec says a non-empty batch returns `estimated_total_time_minutes`
as the max of the per-item predictions (5.0/8.0/3.0 giving 8.0).  The
aggregation the code applies is indeed `max` (not sum), but each per-item call
raises `KeyError` on the `prediction` key, so `predict_batch_prep_time` never
returns the documented dictionary on any non-empty batch: the max rule holds
of the aggregation primitive while the batch operation itself always fails. -/
theorem predict_batch_prep_time_keyerror_at_failing_input :
    pyMax [5, 8, 3] = .ok 8 ∧
    pyMax [5, 8, 3] ≠ .ok (5 + 8 + 3) ∧
    KitchenPredictionService.predict_batch_prep_time kmZero [(1, 1)] [] =
      .error "KeyError: prediction" := by
  have hmax : pyMax [5, 8, 3] = .ok 8 := by
    unfold pyMax
    norm_num [max_eq_right, max_eq_left]
  refine ⟨hmax, ?_, ?_⟩
  · rw [hmax]
    intro hcontra
    have := Except.ok.inj hcontra
    norm_num at this
  · have htr : kmZero.is_trained = true := rfl
    unfold KitchenPredictionService.predict_batch_prep_time
    unfold KitchenPredictionService.collect_predictions
    rw [predict_prep_time_trained_keyerror kmZero 1 1 [] htr]

/-- Concrete untrained inventory model with the constructor defaults
(`holding_cost_per_unit_per_day=0.01`, `stockout_cost_per_unit=10.0`,
`service_level=0.95`); the opaque z-score is irrelevant to these claims. -/
noncomputable def invUntrained : InventoryOptimizationModel :=
  { holding_cost_per_unit_per_day := 1 / 100, stockout_cost_per_unit := 10,
    service_level := 95 / 100, z_score := 0, is_trained := false }

/-- C7 counterexample: at annual_demand = 1, order_cost = 1, holding_cost =
200, the closed-form EOQ is sqrt(1/100) = 0.1, but the code returns
`max(eoq, 1) = 1`, so the returned quantity is not the bare closed form for
every positive input. -/
theorem predict_order_quantity_floors_at_one :
    (invUntrained.predict_order_quantity 1 1 200).optimal_order_quantity = 1 ∧
    Real.sqrt (((2 * 1 * 1) / 200 : ℚ) : ℝ) = 1 / 10 ∧
    (1 : ℝ) ≠ 1 / 10 := by
  have hc : (((2 * 1 * 1) / 200 : ℚ) : ℝ) = (1 / 10 : ℝ) ^ 2 := by
    push_cast
    norm_num
  have hs : Real.sqrt (((2 * 1 * 1) / 200 : ℚ) : ℝ) = 1 / 10 := by
    rw [hc, Real.sqrt_sq (by norm_num)]
  refine ⟨?_, hs, by norm_num⟩
  unfold InventoryOptimizationModel.predict_order_quantity
  rw [if_neg (by norm_num)]
  show max (Real.sqrt (((2 * 1 * 1) / 200 : ℚ) : ℝ)) 1 = 1
  rw [hs]
  exact max_eq_right (by norm_num)

/-- C7 (amended): for positive inputs `predict_order_quantity` returns
`optimal_order_quantity = max(closed-form EOQ, 1)` and
`orders_per_year = max(annual_demand / EOQ, 1)`; at annual_demand=1000,
order_cost=50, holding_cost=2 the floor is inactive and the returned values
are 223.6 (within 0.1) and about 4.47 (within 0.01), as the spec example
says. -/
theorem predict_order_quantity_eoq_amended
    (m : InventoryOptimizationModel) (D S H : ℚ)
    (hD : 0 < D) (hS : 0 < S) (hH : 0 < H) :
    (m.predict_order_quantity D S H).optimal_order_quantity =
      max (Real.sqrt (((2 * D * S) / H : ℚ) : ℝ)) 1 ∧
    (m.predict_order_quantity D S H).orders_per_year =
      max ((D : ℝ) / Real.sqrt (((2 * D * S) / H : ℚ) : ℝ)) 1 ∧
    |(m.predict_order_quantity 1000 50 2).optimal_order_quantity - 223.6| ≤ 0.1 ∧
    |(m.predict_order_quantity 1000 50 2).orders_per_year - 4.47| < 0.01 := by
  have hguard : ¬ ((D : ℚ) ≤ 0 ∨ S ≤ 0 ∨ H ≤ 0) := by
    push_neg
    exact ⟨hD, hS, hH⟩
  have hpos : (0 : ℝ) < (((2 * D * S) / H : ℚ) : ℝ) := by
    have h0 : (0 : ℚ) < (2 * D * S) / H := by positivity
    exact_mod_cast h0
  have hsq : 0 < Real.sqrt (((2 * D * S) / H : ℚ) : ℝ) := Real.sqrt_pos.mpr hpos
  have hcast : (((2 * 1000 * 50) / 2 : ℚ) : ℝ) = 50000 := by norm_num
  have hlt : Real.sqrt (50000 : ℝ) < 223.7 :=
    (Real.sqrt_lt' (by norm_num)).mpr (by norm_num)
  have hgt : (223.5 : ℝ) < Real.sqrt (50000 : ℝ) :=
    (Real.lt_sqrt (by norm_num)).mpr (by norm_num)
  have hs50 : (0 : ℝ) < Real.sqrt (50000 : ℝ) := by linarith
  have hooq : (m.predict_order_quantity 1000 50 2).optimal_order_quantity =
      max (Real.sqrt (((2 * 1000 * 50) / 2 : ℚ) : ℝ)) 1 := by
    unfold InventoryOptimizationModel.predict_order_quantity
    rw [if_neg (by norm_num)]
  have hopy : (m.predict_order_quantity 1000 50 2).orders_per_year =
      max ((1000 : ℝ) / Real.sqrt (((2 * 1000 * 50) / 2 : ℚ) : ℝ)) 1 := by
    unfold InventoryOptimizationModel.predict_order_quantity
    rw [if_neg (by norm_num)]
    show max (if 0 < Real.sqrt (((2 * 1000 * 50) / 2 : ℚ) : ℝ) then
        ((1000 : ℚ) : ℝ) / Real.sqrt (((2 * 1000 * 50) / 2 : ℚ) : ℝ) else 0) 1 =
      max ((1000 : ℝ) / Real.sqrt (((2 * 1000 * 50) / 2 : ℚ) : ℝ)) 1
    rw [if_pos]
    · norm_num
    · rw [hcast]
      exact hs50
  refine ⟨?_, ?_, ?_, ?_⟩
  · unfold InventoryOptimizationModel.predict_order_quantity
    rw [if_neg hguard]
  · unfold InventoryOptimizationModel.predict_order_quantity
    rw [if_neg hguard]
    show max (if 0 < Real.sqrt (((2 * D * S) / H : ℚ) : ℝ) then
        ((D : ℚ) : ℝ) / Real.sqrt (((2 * D * S) / H : ℚ) : ℝ) else 0) 1 =
      max ((D : ℝ) / Real.sqrt (((2 * D * S) / H : ℚ) : ℝ)) 1
    rw [if_pos hsq]
  · rw [hooq, hcast, max_eq_left (by linarith)]
    rw [abs_le]
    constructor <;> [linarith; linarith]
  · rw [hopy, hcast]
    have h1le : (1 : ℝ) ≤ 1000 / Real.sqrt (50000 : ℝ) :=
      (one_le_div hs50).mpr (by linarith)
    rw [max_eq_left h1le]
    have hub : (1000 : ℝ) / Real.sqrt (50000 : ℝ) < 1000 / 223.5 :=
      div_lt_div_of_pos_left (by norm_num) (by norm_num) hgt
    have hlb : (1000 : ℝ) / 223.7 < 1000 / Real.sqrt (50000 : ℝ) :=
      div_lt_div_of_pos_left (by norm_num) hs50 hlt
    have hub2 : (1000 : ℝ) / 223.5 < 4.48 := by norm_num
    have hlb2 : (4.46 : ℝ) < 1000 / 223.7 := by norm_num
    rw [abs_lt]
    constructor <;> linarith

/-- Witness for C7: the amended theorem at the spec's example inputs. -/
theorem predict_order_quantity_eoq_amended_witness :
    (0 : ℚ) < 1000 ∧ (0 : ℚ) < 50 ∧ (0 : ℚ) < 2 ∧
    ((invUntrained.predict_order_quantity 1000 50 2).optimal_order_quantity =
      max (Real.sqrt (((2 * 1000 * 50) / 2 : ℚ) : ℝ)) 1 ∧
    (invUntrained.predict_order_quantity 1000 50 2).orders_per_year =
      max ((1000 : ℝ) / Real.sqrt (((2 * 1000 * 50) / 2 : ℚ) : ℝ)) 1 ∧
    |(invUntrained.predict_order_quantity 1000 50 2).optimal_order_quantity - 223.6| ≤ 0.1 ∧
    |(invUntrained.predict_order_quantity 1000 50 2).orders_per_year - 4.47| < 0.01) :=
  ⟨by norm_num, by norm_num, by norm_num,
   predict_order_quantity_eoq_amended invUntrained 1000 50 2
     (by norm_num) (by norm_num) (by norm_num)⟩

/-- C8 counterexample: the untrained inventory model happily produces full
results from its prediction operations.  `predict_stock_forecast` returns the
complete forecast dictionary and `predict_order_quantity` computes the EOQ
result, with `is_trained = false` throughout, refuting the claim that every
prediction operation on an untrained model fails with the not-trained usage
error. -/
theorem untrained_inventory_model_returns_results :
    invUntrained.is_trained = false ∧
    invUntrained.predict_stock_forecast 100 2 30 =
      { projected_stock_in_30_days := 40, days_until_stockout := some 50,
        will_stockout := false, stock_status := "healthy" } ∧
    (invUntrained.predict_order_quantity 1000 50 2).average_inventory =
      Real.sqrt (((2 * 1000 * 50) / 2 : ℚ) : ℝ) / 2 := by
  refine ⟨rfl, ?_, ?_⟩
  · unfold InventoryOptimizationModel.predict_stock_forecast
    norm_num [max_def]
  · unfold InventoryOptimizationModel.predict_order_quantity
    rw [if_neg (by norm_num)]

/-- C8 (amended): every predict/evaluate/feature-importance operation of the
churn model (`predict_proba`, `predict`, `get_risk_segments`, `evaluate`,
`get_feature_importance`), the LTV model (`predict`, `get_ltv_segments`,
`evaluate`, `get_feature_importance`), the kitchen model (`predict`,
`evaluate`, `get_feature_importance`) and the demand model (`predict`,
`evaluate`, `get_feature_importance`), as well as the inventory model's
`predict_reorder_point`, fails with the not-trained `ValueError` on an
untrained model; but the inventory model's `predict_order_quantity`,
`predict_stock_forecast`, `get_recommendations` and `evaluate` perform no
training check and return full results on an untrained model. -/
theorem not_trained_guard_amended
    (cm : CustomerChurnModel) (lm : CustomerLTVModel)
    (km : KitchenPerformanceModel) (dm : DemandForecastModel)
    (im : InventoryOptimizationModel)
    (hc : cm.is_trained = false) (hl : lm.is_trained = false)
    (hk : km.is_trained = false) (hd : dm.is_trained = false)
    (hi : im.is_trained = false) :
    (∀ X, cm.predict_proba X = .error "Model must be trained first") ∧
    (∀ X, cm.predict X = .error "Model must be trained first") ∧
    (∀ X, cm.get_risk_segments X = .error "Model must be trained first") ∧
    (∀ ps rs fs auc X y,
      cm.evaluate ps rs fs auc X y = .error "Model must be trained first") ∧
    (cm.get_feature_importance = .error "Model must be trained first") ∧
    (∀ X, lm.predict X = .error "Model must be trained first") ∧
    (∀ npp X, lm.get_ltv_segments npp X = .error "Model must be trained first") ∧
    (∀ mae mse r2 X y,
      lm.evaluate mae mse r2 X y = .error "Model must be trained first") ∧
    (lm.get_feature_importance = .error "Model must be trained first") ∧
    (∀ X, km.predict X = .error "Model must be trained first") ∧
    (∀ mae mse r2 X y,
      km.evaluate mae mse r2 X y = .error "Model must be trained first") ∧
    (km.get_feature_importance = .error "Model must be trained first") ∧
    (∀ X dates, dm.predict X dates = .error "Model must be trained before prediction") ∧
    (∀ mae mse r2 X y dates,
      dm.evaluate mae mse r2 X y dates = .error "Model must be trained before prediction") ∧
    (dm.get_feature_importance = .error "Model must be trained first") ∧
    (∀ r lt sd, im.predict_reorder_point r lt sd = .error "Model must be trained first") ∧
    (∀ c r d : ℚ,
      (im.predict_stock_forecast c r d).projected_stock_in_30_days =
        max (c - r * d) 0) ∧
    (∀ D S H : ℚ, 0 < D → 0 < S → 0 < H →
      (im.predict_order_quantity D S H).optimal_order_quantity =
        max (Real.sqrt (((2 * D * S) / H : ℚ) : ℝ)) 1) ∧
    (∀ c rp oq rate minl : ℚ, rp < c → minl < c →
      im.get_recommendations c rp oq rate minl none =
        { action := "hold", urgency := "low",
          reason := "Stock level is healthy",
          recommended_order_qty := 0, order_quantity := none }) ∧
    (∀ a t ah ph : ℚ, t ≠ 0 → ah ≠ 0 →
      im.evaluate a t ah ph =
        .ok { actual_service_level := round4 (1 - a / t),
              target_service_level := im.service_level,
              stockout_rate := round2 (a / t * 100),
              cost_error_percentage := round2 (|ah - ph| / ah * 100) }) := by
  have hproba : ∀ X, cm.predict_proba X = .error "Model must be trained first" := by
    intro X
    unfold CustomerChurnModel.predict_proba
    rw [hc]
    rfl
  have hlp : ∀ X, lm.predict X = .error "Model must be trained first" := by
    intro X
    unfold CustomerLTVModel.predict
    rw [hl]
    rfl
  have hkp : ∀ X, km.predict X = .error "Model must be trained first" := by
    intro X
    unfold KitchenPerformanceModel.predict
    rw [hk]
    rfl
  have hdp : ∀ X dates,
      dm.predict X dates = .error "Model must be trained before prediction" := by
    intro X dates
    unfold DemandForecastModel.predict
    rw [hd]
    rfl
  have hcpred : ∀ X, cm.predict X = .error "Model must be trained first" := by
    intro X
    unfold CustomerChurnModel.predict
    rw [hproba X]
  refine ⟨hproba, hcpred, ?_, ?_, ?_, hlp, ?_, ?_, ?_, hkp, ?_, ?_, hdp, ?_, ?_,
    ?_, ?_, ?_, ?_, ?_⟩
  · intro X
    unfold CustomerChurnModel.get_risk_segments
    rw [hproba X]
  · intro ps rs fs auc X y
    unfold CustomerChurnModel.evaluate
    rw [hcpred X]
  · unfold CustomerChurnModel.get_feature_importance
    rw [hc]
    rfl
  · intro npp X
    unfold CustomerLTVModel.get_ltv_segments
    rw [hlp X]
  · intro mae mse r2 X y
    unfold CustomerLTVModel.evaluate
    rw [hlp X]
  · unfold CustomerLTVModel.get_feature_importance
    rw [hl]
    rfl
  · intro mae mse r2 X y
    unfold KitchenPerformanceModel.evaluate
    rw [hkp X]
  · unfold KitchenPerformanceModel.get_feature_importance
    rw [hk]
    rfl
  · intro mae mse r2 X y dates
    unfold DemandForecastModel.evaluate
    rw [hdp X dates]
  · unfold DemandForecastModel.get_feature_importance
    rw [hd]
    rfl
  · intro r lt sd
    unfold InventoryOptimizationModel.predict_reorder_point
    rw [hi]
    rfl
  · intro c r d
    rfl
  · intro D S H hD hS hH
    unfold InventoryOptimizationModel.predict_order_quantity
    rw [if_neg (by push_neg; exact ⟨hD, hS, hH⟩)]
  · intro c rp oq rate minl h1 h2
    unfold InventoryOptimizationModel.get_recommendations applyMaxLevelRule
      applyMinLevelRule applyReorderRule
    rw [if_neg (not_le.mpr h1), if_neg (not_le.mpr h2)]
  · intro a t ah ph ht hah
    unfold InventoryOptimizationModel.evaluate
    rw [if_neg ht, if_neg hah]

/-- Concrete untrained churn model used by the C8 witness. -/
noncomputable def cmUntrained : CustomerChurnModel :=
  { threshold := 1 / 2, label_encode := fun r => .ok r,
    scaler_transform := fun r => r, classifier_proba := fun _ => 0,
    feature_importances := [], is_trained := false }

/-- Concrete untrained LTV model used by the C8 witness. -/
noncomputable def lmUntrained : CustomerLTVModel :=
  { label_encode := fun r => .ok r, scaler_transform := fun r => r,
    regressor := fun _ => 0, feature_importances := [], is_trained := false }

/-- Concrete untrained kitchen model used by the C8 witness. -/
noncomputable def kmUntrained : KitchenPerformanceModel :=
  { scaler_transform := fun r => r, regressor := fun _ => 0,
    feature_importances := [], is_trained := false }

/-- Concrete untrained demand model used by the C8 witness. -/
noncomputable def dmUntrained : DemandForecastModel :=
  { ensemble_weight := 0.7, scaler_transform := fun r => r,
    xgb_regressor := fun _ => 0, prophet := none,
    feature_importances := [], is_trained := false }

/-- Witness for C8: the amended theorem at concrete untrained models, with
every operation instantiated (dummy opaque metric functions where the source
calls sklearn). -/
theorem not_trained_guard_amended_witness :
    cmUntrained.is_trained = false ∧
    cmUntrained.predict_proba [[5]] = .error "Model must be trained first" ∧
    cmUntrained.predict [[5]] = .error "Model must be trained first" ∧
    cmUntrained.get_risk_segments [[5]] = .error "Model must be trained first" ∧
    cmUntrained.evaluate (fun _ _ => 0) (fun _ _ => 0) (fun _ _ => 0)
      (fun _ _ => 0) [[5]] [1] = .error "Model must be trained first" ∧
    cmUntrained.get_feature_importance = .error "Model must be trained first" ∧
    lmUntrained.predict [[5]] = .error "Model must be trained first" ∧
    lmUntrained.get_ltv_segments (fun _ _ => 0) [[5]] =
      .error "Model must be trained first" ∧
    lmUntrained.evaluate (fun _ _ => 0) (fun _ _ => 0) (fun _ _ => 0) [[5]] [1] =
      .error "Model must be trained first" ∧
    lmUntrained.get_feature_importance = .error "Model must be trained first" ∧
    kmUntrained.predict [[5]] = .error "Model must be trained first" ∧
    kmUntrained.evaluate (fun _ _ => 0) (fun _ _ => 0) (fun _ _ => 0) [[5]] [1] =
      .error "Model must be trained first" ∧
    kmUntrained.get_feature_importance = .error "Model must be trained first" ∧
    dmUntrained.predict [[5]] [0] = .error "Model must be trained before prediction" ∧
    dmUntrained.evaluate (fun _ _ => 0) (fun _ _ => 0) (fun _ _ => 0) [[5]] [1] [0] =
      .error "Model must be trained before prediction" ∧
    dmUntrained.get_feature_importance = .error "Model must be trained first" ∧
    invUntrained.predict_reorder_point 2 7 1 = .error "Model must be trained first" ∧
    (invUntrained.predict_stock_forecast 100 2 30).projected_stock_in_30_days =
      max (100 - 2 * 30) 0 ∧
    ((0 : ℚ) < 1000 ∧ (0 : ℚ) < 50 ∧ (0 : ℚ) < 2 ∧
      (invUntrained.predict_order_quantity 1000 50 2).optimal_order_quantity =
        max (Real.sqrt (((2 * 1000 * 50) / 2 : ℚ) : ℝ)) 1) ∧
    ((5 : ℚ) < 100 ∧ (1 : ℚ) < 100 ∧
      invUntrained.get_recommendations 100 5 20 2 1 none =
        { action := "hold", urgency := "low",
          reason := "Stock level is healthy",
          recommended_order_qty := 0, order_quantity := none }) ∧
    ((100 : ℚ) ≠ 0 ∧ (50 : ℚ) ≠ 0 ∧
      invUntrained.evaluate 1 100 50 40 =
        .ok { actual_service_level := round4 (1 - 1 / 100),
              target_service_level := invUntrained.service_level,
              stockout_rate := round2 (1 / 100 * 100),
              cost_error_percentage := round2 (|(50 : ℚ) - 40| / 50 * 100) }) := by
  obtain ⟨h1, h2, h3, h4, h5, h6, h7, h8, h9, h10, h11, h12,
    h13, h14, h15, h16, h17, h18, h19, h20⟩ :=
    not_trained_guard_amended cmUntrained lmUntrained kmUntrained dmUntrained
      invUntrained rfl rfl rfl rfl rfl
  exact ⟨rfl, h1 [[5]], h2 [[5]], h3 [[5]],
    h4 (fun _ _ => 0) (fun _ _ => 0) (fun _ _ => 0) (fun _ _ => 0) [[5]] [1], h5,
    h6 [[5]], h7 (fun _ _ => 0) [[5]],
    h8 (fun _ _ => 0) (fun _ _ => 0) (fun _ _ => 0) [[5]] [1], h9,
    h10 [[5]], h11 (fun _ _ => 0) (fun _ _ => 0) (fun _ _ => 0) [[5]] [1], h12,
    h13 [[5]] [0],
    h14 (fun _ _ => 0) (fun _ _ => 0) (fun _ _ => 0) [[5]] [1] [0], h15,
    h16 2 7 1, h17 100 2 30,
    ⟨by norm_num, by norm_num, by norm_num,
      h18 1000 50 2 (by norm_num) (by norm_num) (by norm_num)⟩,
    ⟨by norm_num, by norm_num, h19 100 5 20 2 1 (by norm_num) (by norm_num)⟩,
    ⟨by norm_num, by norm_num, h20 1 100 50 40 (by norm_num) (by norm_num)⟩⟩
/-- C9: whenever a demand, kitchen or LTV predict succeeds, every element of
the returned prediction array is nonnegative, thanks to the final
`np.maximum(., 0)` clamp. -/
theorem predictions_nonnegative :
    (∀ (m : KitchenPerformanceModel) (X : List (List ℝ)) (ys : List ℝ),
      m.predict X = .ok ys → ∀ y ∈ ys, 0 ≤ y) ∧
    (∀ (m : CustomerLTVModel) (X : List (List ℝ)) (ys : List ℝ),
      m.predict X = .ok ys → ∀ y ∈ ys, 0 ≤ y) ∧
    (∀ (m : DemandForecastModel) (X : List (List ℝ)) (dates : List ℚ) (ys : List ℝ),
      m.predict X dates = .ok ys → ∀ y ∈ ys, 0 ≤ y) := by
  refine ⟨?_, ?_, ?_⟩
  · intro m X ys h
    unfold KitchenPerformanceModel.predict at h
    split at h
    · cases h
    · obtain rfl := Except.ok.inj h
      intro y hy
      rw [List.mem_map] at hy
      obtain ⟨a, _, rfl⟩ := hy
      exact le_max_right a 0
  · intro m X ys h
    unfold CustomerLTVModel.predict at h
    split at h
    · cases h
    · split at h
      · cases h
      · obtain rfl := Except.ok.inj h
        intro y hy
        rw [List.mem_map] at hy
        obtain ⟨a, _, rfl⟩ := hy
        exact le_max_right a 0
  · intro m X dates ys h
    unfold DemandForecastModel.predict at h
    split at h
    · cases h
    · obtain rfl := Except.ok.inj h
      intro y hy
      rw [List.mem_map] at hy
      obtain ⟨a, _, rfl⟩ := hy
      exact le_max_right a 0

/-- Trained kitchen model whose regressor is constantly -3, showing the
clamp. -/
noncomputable def kmNeg : KitchenPerformanceModel :=
  { scaler_transform := fun r => r, regressor := fun _ => -3,
    feature_importances := [], is_trained := true }

/-- Trained LTV model whose regressor is constantly -3. -/
noncomputable def lmNeg : CustomerLTVModel :=
  { label_encode := fun r => .ok r, scaler_transform := fun r => r,
    regressor := fun _ => -3, feature_importances := [], is_trained := true }

/-- Trained demand model (no Prophet component) whose XGBoost component is
constantly -3. -/
noncomputable def dmNeg : DemandForecastModel :=
  { ensemble_weight := 0.7, scaler_transform := fun r => r,
    xgb_regressor := fun _ => -3, prophet := none,
    feature_importances := [], is_trained := true }

/-- Witness for C9: the three predicts at concrete models, each clamping a
raw -3 to 0. -/
theorem predictions_nonnegative_witness :
    kmNeg.predict [[1]] = .ok [0] ∧
    lmNeg.predict [[1]] = .ok [0] ∧
    dmNeg.predict [[1]] [0] = .ok [0] ∧
    ∀ y ∈ ([0] : List ℝ), 0 ≤ y := by
  have hmax : max (-3 : ℝ) 0 = 0 := max_eq_right (by norm_num)
  have hk : kmNeg.predict [[1]] = .ok [0] := by
    have h0 : kmNeg.predict [[1]] = .ok [max (-3 : ℝ) 0] := rfl
    rw [h0, hmax]
  have hl : lmNeg.predict [[1]] = .ok [0] := by
    have h0 : lmNeg.predict [[1]] = .ok [max (-3 : ℝ) 0] := rfl
    rw [h0, hmax]
  have hd : dmNeg.predict [[1]] [0] = .ok [0] := by
    have h0 : dmNeg.predict [[1]] [0] = .ok [max (-3 : ℝ) 0] := rfl
    rw [h0, hmax]
  exact ⟨hk, hl, hd, predictions_nonnegative.1 kmNeg [[1]] [0] hk⟩

end KitchenCommandML
